import Mathlib

/-!
Shallow embedding of the `azure_otdr` repository (files `otdr_parser.py` and
`otdr_algorithm.py`) together with theorems settling the frozen claims about it.

Modelling conventions:
* Python `bytes` values are `List ℕ` (each element a byte value).
* Python `str` values are Lean `String` (a list of Unicode scalar values, which
  is what a Python `str` holds as well).
* Python's arbitrary-precision `int` is `ℤ` (or `ℕ` where the source value is
  provably a nonnegative index/count), so no wrap-around is introduced.
* Python floats in the analyzer are modelled over `ℚ`; the two scipy/numpy
  routines whose values are transcendental floats (`gaussian_filter1d`,
  `np.gradient`) are taken as parameters of the analyzer and the analyzer
  theorems are proved for every such routine.
* A Python function that can raise becomes `Except String α`; the error strings
  mirror the source messages (without the f-string interpolated parts).
-/

/-! ### Python slicing and errors -/

/-- Python slice-index normalisation for a sequence of length `n`: a negative
index counts from the end (clamped at 0), a nonnegative one is clamped at `n`. -/
def pyIdx (n : ℕ) (i : ℤ) : ℕ :=
  if i < 0 then ((n : ℤ) + i).toNat else min i.toNat n

/-- Python `data[a:b]` on a byte string, with full negative-index semantics. -/
def pySlice (data : List ℕ) (a b : ℤ) : List ℕ :=
  (data.drop (pyIdx data.length a)).take (pyIdx data.length b - pyIdx data.length a)

/-- Python attribute access on an `Optional` value: `None.attr` raises
`AttributeError`. -/
def pyAttr {α : Type} (o : Option α) : Except String α :=
  match o with
  | some v => Except.ok v
  | none => Except.error "AttributeError: NoneType object has no attribute"

/-- Python `l[i]` for a nonnegative index: out of range raises `IndexError`. -/
def pyIndex {α : Type} (l : List α) (i : ℕ) : Except String α :=
  match l[i]? with
  | some v => Except.ok v
  | none => Except.error "IndexError: index out of range"

/-- Python float division: division by zero raises `ZeroDivisionError`. -/
def pyDiv (a b : ℚ) : Except String ℚ :=
  if b = 0 then Except.error "ZeroDivisionError: float division by zero"
  else Except.ok (a / b)

/-! ### UTF-8 codec (Python `bytes.decode("utf-8")` / `str.encode("utf-8")`,
strict mode: overlong forms, surrogates and values beyond U+10FFFF rejected) -/

/-- UTF-8 encoding of one Unicode scalar value. -/
def utf8EncodeChar (cp : ℕ) : List ℕ :=
  if cp < 0x80 then [cp]
  else if cp < 0x800 then [0xC0 + cp / 64, 0x80 + cp % 64]
  else if cp < 0x10000 then
    [0xE0 + cp / 4096, 0x80 + cp / 64 % 64, 0x80 + cp % 64]
  else
    [0xF0 + cp / 262144, 0x80 + cp / 4096 % 64, 0x80 + cp / 64 % 64, 0x80 + cp % 64]

/-- UTF-8 encoding of a Python string (`s.encode("utf-8")`). -/
def utf8Encode (s : String) : List ℕ :=
  s.data.flatMap (fun c => utf8EncodeChar c.toNat)

/-- State of the UTF-8 decoding automaton inside a multi-byte sequence:
how many continuation bytes are still expected, the accumulated scalar value,
and the allowed range for the next byte (the first continuation byte of a
sequence has a restricted range that rules out overlong forms and surrogates). -/
structure Utf8Pend where
  remaining : ℕ
  acc : ℕ
  lo : ℕ
  hi : ℕ
  deriving Repr, DecidableEq

/-- One run of the UTF-8 decoding automaton over the remaining bytes. -/
def utf8Run : Option Utf8Pend → List ℕ → Option (List Char)
  | none, [] => some []
  | some _, [] => none
  | none, b :: rest =>
    if b < 0x80 then (utf8Run none rest).map (fun cs => Char.ofNat b :: cs)
    else if b < 0xC2 then none
    else if b ≤ 0xDF then utf8Run (some ⟨1, b - 0xC0, 0x80, 0xBF⟩) rest
    else if b ≤ 0xEF then
      utf8Run (some ⟨2, b - 0xE0, if b = 0xE0 then 0xA0 else 0x80,
                     if b = 0xED then 0x9F else 0xBF⟩) rest
    else if b ≤ 0xF4 then
      utf8Run (some ⟨3, b - 0xF0, if b = 0xF0 then 0x90 else 0x80,
                     if b = 0xF4 then 0x8F else 0xBF⟩) rest
    else none
  | some p, b :: rest =>
    if p.lo ≤ b ∧ b ≤ p.hi then
      if p.remaining = 1 then
        (utf8Run none rest).map (fun cs => Char.ofNat (p.acc * 64 + (b - 0x80)) :: cs)
      else utf8Run (some ⟨p.remaining - 1, p.acc * 64 + (b - 0x80), 0x80, 0xBF⟩) rest
    else none

/-- Strict UTF-8 decoding of a byte string; `none` models `UnicodeDecodeError`. -/
def utf8Decode? (bs : List ℕ) : Option (List Char) :=
  utf8Run none bs

/-! ### Primitive codec (`otdr_parser.py` lines 208–272) -/

/-- `parse_le_i16`: little-endian signed 16-bit read with a bounds check. -/
def parse_le_i16 (data : List ℕ) (offset : ℕ) : Except String (ℤ × ℕ) :=
  if data.length < offset + 2 then Except.error "Unexpected end of data in i16"
  else
    let raw : ℕ := data.getD offset 0 + 256 * data.getD (offset + 1) 0
    let value : ℤ := if raw < 0x8000 then (raw : ℤ) else (raw : ℤ) - 0x10000
    Except.ok (value, offset + 2)

/-- `parse_le_i32`: little-endian signed 32-bit read with a bounds check. -/
def parse_le_i32 (data : List ℕ) (offset : ℕ) : Except String (ℤ × ℕ) :=
  if data.length < offset + 4 then Except.error "Unexpected end of data in i32"
  else
    let raw : ℕ := data.getD offset 0 + 256 * data.getD (offset + 1) 0 +
      65536 * data.getD (offset + 2) 0 + 16777216 * data.getD (offset + 3) 0
    let value : ℤ := if raw < 0x80000000 then (raw : ℤ) else (raw : ℤ) - 0x100000000
    Except.ok (value, offset + 4)

/-- `parse_le_u16`: little-endian unsigned 16-bit read with a bounds check. -/
def parse_le_u16 (data : List ℕ) (offset : ℕ) : Except String (ℕ × ℕ) :=
  if data.length < offset + 2 then Except.error "Unexpected end of data in u16"
  else Except.ok (data.getD offset 0 + 256 * data.getD (offset + 1) 0, offset + 2)

/-- `parse_le_u32`: little-endian unsigned 32-bit read with a bounds check. -/
def parse_le_u32 (data : List ℕ) (offset : ℕ) : Except String (ℕ × ℕ) :=
  if data.length < offset + 4 then Except.error "Unexpected end of data in u32"
  else
    Except.ok (data.getD offset 0 + 256 * data.getD (offset + 1) 0 +
      65536 * data.getD (offset + 2) 0 + 16777216 * data.getD (offset + 3) 0, offset + 4)

/-- `fixed_length_str`: bounds-checked fixed-width field, decoded as UTF-8
(a decode failure raises `ParseError`, like the source's wrapped
`UnicodeDecodeError`). -/
def fixed_length_str (data : List ℕ) (offset : ℕ) (n_bytes : ℕ) :
    Except String (String × ℕ) :=
  if data.length < offset + n_bytes then
    Except.error "Unexpected end of data in fixed_length_str"
  else
    match utf8Decode? ((data.drop offset).take n_bytes) with
    | none => Except.error "Failed to decode fixed_length_str"
    | some cs => Except.ok (String.mk cs, offset + n_bytes)

/-- `null_terminated_chunk`: scan for the next NUL from `offset`. -/
def null_terminated_chunk (data : List ℕ) (offset : ℕ) :
    Except String (List ℕ × ℕ) :=
  match (data.drop offset).findIdx? (fun b => b = 0) with
  | none => Except.error "Null terminator not found"
  | some i => Except.ok ((data.drop offset).take i, offset + i + 1)

/-- `null_terminated_str`: a NUL-terminated UTF-8 string. -/
def null_terminated_str (data : List ℕ) (offset : ℕ) :
    Except String (String × ℕ) := do
  let (chunk, new_offset) ← null_terminated_chunk data offset
  match utf8Decode? chunk with
  | none => Except.error "Failed to decode null_terminated_str"
  | some cs => Except.ok (String.mk cs, new_offset)

/-- `block_header`: consume the literal ASCII tag of a block followed by a
single NUL byte (the source formats the tag into the first error message). -/
def block_header (data : List ℕ) (offset : ℕ) (header : String) :
    Except String ℕ :=
  let expected := utf8Encode header
  if (data.drop offset).take expected.length ≠ expected then
    Except.error "Expected header not found"
  else if (data.drop (offset + expected.length)).take 1 ≠ [0] then
    Except.error "Expected null terminator after header"
  else Except.ok (offset + expected.length + 1)

/-- Repeat a parser `n` times (the source's `for _ in range(n)` read loops). -/
def parseN {α : Type} (n : ℕ)
    (p : List ℕ → ℕ → Except String (α × ℕ))
    (data : List ℕ) (offset : ℕ) : Except String (List α × ℕ) :=
  match n with
  | 0 => Except.ok ([], offset)
  | n + 1 => do
    let (x, off) ← p data offset
    let (xs, off') ← parseN n p data off
    Except.ok (x :: xs, off')

/-! ### Data model (`otdr_parser.py` lines 9–182) -/

/-- One directory entry of the Map block. -/
structure BlockInfo where
  identifier : String
  revision_number : ℕ
  size : ℤ
  deriving Repr, DecidableEq

/-- The Map (directory) block. -/
structure MapBlock where
  revision_number : ℕ
  block_size : ℤ
  block_count : ℤ
  block_info : List BlockInfo
  deriving Repr, DecidableEq

/-- The general parameters block. -/
structure GeneralParametersBlock where
  language_code : String
  cable_id : String
  fiber_id : String
  fiber_type : ℤ
  nominal_wavelength : ℤ
  originating_location : String
  terminating_location : String
  cable_code : String
  current_data_flag : String
  user_offset : ℤ
  user_offset_distance : ℤ
  operator : String
  comment : String
  deriving Repr, DecidableEq

/-- The supplier parameters block. -/
structure SupplierParametersBlock where
  supplier_name : String
  otdr_mainframe_id : String
  otdr_mainframe_sn : String
  optical_module_id : String
  optical_module_sn : String
  software_revision : String
  other : String
  deriving Repr, DecidableEq

/-- The fixed acquisition parameters block. -/
structure FixedParametersBlock where
  date_time_stamp : ℕ
  units_of_distance : String
  actual_wavelength : ℤ
  acquisition_offset : ℤ
  acquisition_offset_distance : ℤ
  total_n_pulse_widths_used : ℤ
  pulse_widths_used : List ℤ
  data_spacing : List ℤ
  n_data_points_for_pulse_widths_used : List ℤ
  group_index : ℤ
  backscatter_coefficient : ℤ
  number_of_averages : ℤ
  averaging_time : ℕ
  acquisition_range : ℤ
  acquisition_range_distance : ℤ
  front_panel_offset : ℤ
  noise_floor_level : ℕ
  noise_floor_scale_factor : ℤ
  power_offset_first_point : ℕ
  loss_threshold : ℕ
  reflectance_threshold : ℕ
  end_of_fibre_threshold : ℕ
  trace_type : String
  window_coordinate_1 : ℤ
  window_coordinate_2 : ℤ
  window_coordinate_3 : ℤ
  window_coordinate_4 : ℤ
  deriving Repr, DecidableEq

/-- One ordinary key event record. -/
structure KeyEvent where
  event_number : ℤ
  event_propogation_time : ℤ
  attenuation_coefficient_lead_in_fiber : ℤ
  event_loss : ℤ
  event_reflectance : ℤ
  event_code : String
  loss_measurement_technique : String
  marker_location_1 : ℤ
  marker_location_2 : ℤ
  marker_location_3 : ℤ
  marker_location_4 : ℤ
  marker_location_5 : ℤ
  comment : String
  deriving Repr, DecidableEq

/-- The final key event record, with the end-to-end summary fields. -/
structure LastKeyEvent where
  event_number : ℤ
  event_propogation_time : ℤ
  attenuation_coefficient_lead_in_fiber : ℤ
  event_loss : ℤ
  event_reflectance : ℤ
  event_code : String
  loss_measurement_technique : String
  marker_location_1 : ℤ
  marker_location_2 : ℤ
  marker_location_3 : ℤ
  marker_location_4 : ℤ
  marker_location_5 : ℤ
  comment : String
  end_to_end_loss : ℤ
  end_to_end_marker_position_1 : ℤ
  end_to_end_marker_position_2 : ℤ
  optical_return_loss : ℕ
  optical_return_loss_marker_position_1 : ℤ
  optical_return_loss_marker_position_2 : ℤ
  deriving Repr, DecidableEq

/-- The key events block. -/
structure KeyEvents where
  number_of_key_events : ℤ
  key_events : List KeyEvent
  last_key_event : LastKeyEvent
  deriving Repr, DecidableEq

/-- One landmark record (declared but never populated by the decoder). -/
structure Landmark where
  landmark_number : ℤ
  landmark_code : String
  landmark_location : ℤ
  related_event_number : ℤ
  gps_longitude : ℤ
  gps_latitude : ℤ
  fiber_correction_factor_lead_in_fiber : ℤ
  sheath_marker_entering_landmark : ℤ
  sheath_marker_leaving_landmark : ℤ
  units_of_sheath_marks_leaving_landmark : String
  mode_field_diameter_leaving_landmark : ℤ
  comment : String
  deriving Repr, DecidableEq

/-- The samples recorded at one scale factor. -/
structure DataPointsAtScaleFactor where
  n_points : ℤ
  scale_factor : ℤ
  data : List ℕ
  deriving Repr, DecidableEq

/-- The data points block. -/
structure DataPoints where
  number_of_data_points : ℤ
  total_number_scale_factors_used : ℤ
  scale_factors : List DataPointsAtScaleFactor
  deriving Repr, DecidableEq

/-- The link parameters block (never populated by the decoder). -/
structure LinkParameters where
  number_of_landmarks : ℤ
  landmarks : List Landmark
  deriving Repr, DecidableEq

/-- An unrecognized block, kept verbatim. -/
structure ProprietaryBlock where
  header : String
  data : List ℕ
  deriving Repr, DecidableEq

/-- The aggregate decoded file. -/
structure SORFile where
  map : MapBlock
  general_parameters : Option GeneralParametersBlock
  supplier_parameters : Option SupplierParametersBlock
  fixed_parameters : Option FixedParametersBlock
  key_events : Option KeyEvents
  link_parameters : Option LinkParameters
  data_points : Option DataPoints
  proprietary_blocks : List ProprietaryBlock
  deriving Repr, DecidableEq

/-! ### Block decoders (`otdr_parser.py` lines 279–610) -/

/-- `map_block_info`: one directory entry. -/
def map_block_info (data : List ℕ) (offset : ℕ) :
    Except String (BlockInfo × ℕ) := do
  let (header_str, offset) ← null_terminated_str data offset
  let (revision_number, offset) ← parse_le_u16 data offset
  let (size, offset) ← parse_le_i32 data offset
  Except.ok (⟨header_str, revision_number, size⟩, offset)

/-- `map_block`: the directory block, parsed from `offset` (default 0). -/
def map_block (data : List ℕ) (offset : ℕ := 0) :
    Except String (MapBlock × ℕ) := do
  let offset ← block_header data offset "Map"
  let (revision_number, offset) ← parse_le_u16 data offset
  let (block_size, offset) ← parse_le_i32 data offset
  let (block_count, offset) ← parse_le_i16 data offset
  let blocks_to_read := block_count - 1
  if blocks_to_read < 0 then Except.error "Invalid block count in map_block"
  else do
    let (block_infos, offset) ← parseN blocks_to_read.toNat map_block_info data offset
    Except.ok (⟨revision_number, block_size, block_count, block_infos⟩, offset)

/-- `general_parameters_block`. -/
def general_parameters_block (data : List ℕ) (offset : ℕ) :
    Except String (GeneralParametersBlock × ℕ) := do
  let offset ← block_header data offset "GenParams"
  let (language_code, offset) ← fixed_length_str data offset 2
  let (cable_id, offset) ← null_terminated_str data offset
  let (fiber_id, offset) ← null_terminated_str data offset
  let (fiber_type, offset) ← parse_le_i16 data offset
  let (nominal_wavelength, offset) ← parse_le_i16 data offset
  let (originating_location, offset) ← null_terminated_str data offset
  let (terminating_location, offset) ← null_terminated_str data offset
  let (cable_code, offset) ← null_terminated_str data offset
  let (current_data_flag, offset) ← fixed_length_str data offset 2
  let (user_offset, offset) ← parse_le_i32 data offset
  let (user_offset_distance, offset) ← parse_le_i32 data offset
  let (operator_str, offset) ← null_terminated_str data offset
  let (comment, offset) ← null_terminated_str data offset
  Except.ok (⟨language_code, cable_id, fiber_id, fiber_type, nominal_wavelength,
    originating_location, terminating_location, cable_code, current_data_flag,
    user_offset, user_offset_distance, operator_str, comment⟩, offset)

/-- `supplier_parameters_block`. -/
def supplier_parameters_block (data : List ℕ) (offset : ℕ) :
    Except String (SupplierParametersBlock × ℕ) := do
  let offset ← block_header data offset "SupParams"
  let (supplier_name, offset) ← null_terminated_str data offset
  let (otdr_mainframe_id, offset) ← null_terminated_str data offset
  let (otdr_mainframe_sn, offset) ← null_terminated_str data offset
  let (optical_module_id, offset) ← null_terminated_str data offset
  let (optical_module_sn, offset) ← null_terminated_str data offset
  let (software_revision, offset) ← null_terminated_str data offset
  let (other, offset) ← null_terminated_str data offset
  Except.ok (⟨supplier_name, otdr_mainframe_id, otdr_mainframe_sn,
    optical_module_id, optical_module_sn, software_revision, other⟩, offset)

/-- `fixed_parameters_block`: note the three count-driven arrays are read as
three consecutive homogeneous runs, each driven by `total_n_pulse_widths_used`
(a Python `range(n)` over a negative `n` is empty, hence `Int.toNat`). -/
def fixed_parameters_block (data : List ℕ) (offset : ℕ) :
    Except String (FixedParametersBlock × ℕ) := do
  let offset ← block_header data offset "FxdParams"
  let (date_time_stamp, offset) ← parse_le_u32 data offset
  let (units_of_distance, offset) ← fixed_length_str data offset 2
  let (actual_wavelength, offset) ← parse_le_i16 data offset
  let (acquisition_offset, offset) ← parse_le_i32 data offset
  let (acquisition_offset_distance, offset) ← parse_le_i32 data offset
  let (total_n_pulse_widths_used, offset) ← parse_le_i16 data offset
  let (pulse_widths_used, offset) ←
    parseN total_n_pulse_widths_used.toNat parse_le_i16 data offset
  let (data_spacing, offset) ←
    parseN total_n_pulse_widths_used.toNat parse_le_i32 data offset
  let (n_data_points_for_pulse_widths_used, offset) ←
    parseN total_n_pulse_widths_used.toNat parse_le_i32 data offset
  let (group_index, offset) ← parse_le_i32 data offset
  let (backscatter_coefficient, offset) ← parse_le_i16 data offset
  let (number_of_averages, offset) ← parse_le_i32 data offset
  let (averaging_time, offset) ← parse_le_u16 data offset
  let (acquisition_range, offset) ← parse_le_i32 data offset
  let (acquisition_range_distance, offset) ← parse_le_i32 data offset
  let (front_panel_offset, offset) ← parse_le_i32 data offset
  let (noise_floor_level, offset) ← parse_le_u16 data offset
  let (noise_floor_scale_factor, offset) ← parse_le_i16 data offset
  let (power_offset_first_point, offset) ← parse_le_u16 data offset
  let (loss_threshold, offset) ← parse_le_u16 data offset
  let (reflectance_threshold, offset) ← parse_le_u16 data offset
  let (end_of_fibre_threshold, offset) ← parse_le_u16 data offset
  let (trace_type, offset) ← fixed_length_str data offset 2
  let (window_coordinate_1, offset) ← parse_le_i32 data offset
  let (window_coordinate_2, offset) ← parse_le_i32 data offset
  let (window_coordinate_3, offset) ← parse_le_i32 data offset
  let (window_coordinate_4, offset) ← parse_le_i32 data offset
  Except.ok (⟨date_time_stamp, units_of_distance, actual_wavelength,
    acquisition_offset, acquisition_offset_distance, total_n_pulse_widths_used,
    pulse_widths_used, data_spacing, n_data_points_for_pulse_widths_used,
    group_index, backscatter_coefficient, number_of_averages, averaging_time,
    acquisition_range, acquisition_range_distance, front_panel_offset,
    noise_floor_level, noise_floor_scale_factor, power_offset_first_point,
    loss_threshold, reflectance_threshold, end_of_fibre_threshold, trace_type,
    window_coordinate_1, window_coordinate_2, window_coordinate_3,
    window_coordinate_4⟩, offset)

/-- `key_event`. -/
def key_event (data : List ℕ) (offset : ℕ) : Except String (KeyEvent × ℕ) := do
  let (event_number, offset) ← parse_le_i16 data offset
  let (event_propogation_time, offset) ← parse_le_i32 data offset
  let (attenuation_coefficient_lead_in_fiber, offset) ← parse_le_i16 data offset
  let (event_loss, offset) ← parse_le_i16 data offset
  let (event_reflectance, offset) ← parse_le_i32 data offset
  let (event_code, offset) ← fixed_length_str data offset 6
  let (loss_measurement_technique, offset) ← fixed_length_str data offset 2
  let (marker_location_1, offset) ← parse_le_i32 data offset
  let (marker_location_2, offset) ← parse_le_i32 data offset
  let (marker_location_3, offset) ← parse_le_i32 data offset
  let (marker_location_4, offset) ← parse_le_i32 data offset
  let (marker_location_5, offset) ← parse_le_i32 data offset
  let (comment, offset) ← null_terminated_str data offset
  Except.ok (⟨event_number, event_propogation_time,
    attenuation_coefficient_lead_in_fiber, event_loss, event_reflectance,
    event_code, loss_measurement_technique, marker_location_1,
    marker_location_2, marker_location_3, marker_location_4, marker_location_5,
    comment⟩, offset)

/-- `last_key_event`. -/
def last_key_event (data : List ℕ) (offset : ℕ) :
    Except String (LastKeyEvent × ℕ) := do
  let (event_number, offset) ← parse_le_i16 data offset
  let (event_propogation_time, offset) ← parse_le_i32 data offset
  let (attenuation_coefficient_lead_in_fiber, offset) ← parse_le_i16 data offset
  let (event_loss, offset) ← parse_le_i16 data offset
  let (event_reflectance, offset) ← parse_le_i32 data offset
  let (event_code, offset) ← fixed_length_str data offset 6
  let (loss_measurement_technique, offset) ← fixed_length_str data offset 2
  let (marker_location_1, offset) ← parse_le_i32 data offset
  let (marker_location_2, offset) ← parse_le_i32 data offset
  let (marker_location_3, offset) ← parse_le_i32 data offset
  let (marker_location_4, offset) ← parse_le_i32 data offset
  let (marker_location_5, offset) ← parse_le_i32 data offset
  let (comment, offset) ← null_terminated_str data offset
  let (end_to_end_loss, offset) ← parse_le_i32 data offset
  let (end_to_end_marker_position_1, offset) ← parse_le_i32 data offset
  let (end_to_end_marker_position_2, offset) ← parse_le_i32 data offset
  let (optical_return_loss, offset) ← parse_le_u16 data offset
  let (optical_return_loss_marker_position_1, offset) ← parse_le_i32 data offset
  let (optical_return_loss_marker_position_2, offset) ← parse_le_i32 data offset
  Except.ok (⟨event_number, event_propogation_time,
    attenuation_coefficient_lead_in_fiber, event_loss, event_reflectance,
    event_code, loss_measurement_technique, marker_location_1,
    marker_location_2, marker_location_3, marker_location_4, marker_location_5,
    comment, end_to_end_loss, end_to_end_marker_position_1,
    end_to_end_marker_position_2, optical_return_loss,
    optical_return_loss_marker_position_1,
    optical_return_loss_marker_position_2⟩, offset)

/-- `key_events_block`: the declared count minus one ordinary events, then
exactly one last event; a declared count below one is a format failure. -/
def key_events_block (data : List ℕ) (offset : ℕ) :
    Except String (KeyEvents × ℕ) := do
  let offset ← block_header data offset "KeyEvents"
  let (number_of_key_events, offset) ← parse_le_i16 data offset
  let n_key_events := number_of_key_events - 1
  if n_key_events < 0 then Except.error "Invalid number of key events"
  else do
    let (key_events_list, offset) ← parseN n_key_events.toNat key_event data offset
    let (lke, offset) ← last_key_event data offset
    Except.ok (⟨number_of_key_events, key_events_list, lke⟩, offset)

/-- `data_points_at_scale_factor`. -/
def data_points_at_scale_factor (data : List ℕ) (offset : ℕ) :
    Except String (DataPointsAtScaleFactor × ℕ) := do
  let (n_points, offset) ← parse_le_i32 data offset
  let (scale_factor, offset) ← parse_le_i16 data offset
  let (data_points_list, offset) ← parseN n_points.toNat parse_le_u16 data offset
  Except.ok (⟨n_points, scale_factor, data_points_list⟩, offset)

/-- `data_points_block`. -/
def data_points_block (data : List ℕ) (offset : ℕ) :
    Except String (DataPoints × ℕ) := do
  let offset ← block_header data offset "DataPts"
  let (number_of_data_points, offset) ← parse_le_i32 data offset
  let (total_number_scale_factors_used, offset) ← parse_le_i16 data offset
  let (scale_factors, offset) ←
    parseN total_number_scale_factors_used.toNat data_points_at_scale_factor data offset
  Except.ok (⟨number_of_data_points, total_number_scale_factors_used,
    scale_factors⟩, offset)

/-- `proprietary_block`: a NUL-terminated header, all remaining bytes verbatim. -/
def proprietary_block (data : List ℕ) (offset : ℕ) :
    Except String (ProprietaryBlock × ℕ) := do
  let (header, offset) ← null_terminated_str data offset
  Except.ok (⟨header, data.drop offset⟩, data.length)

/-! ### Block extraction and the file assembler (`otdr_parser.py` lines 617–688) -/

/-- Error message of the running-offset overflow check in `extract_block_data`. -/
def offsetOverflowMsg : String := "Error with block data – offset value is incorrect"

/-- Error message of the range check in `extract_block_data`. -/
def badRangeMsg : String :=
  "Error with block data – reported block position or length is incorrect"

/-- The final bounds check and slice of `extract_block_data`. -/
def extractFinalize (data : List ℕ) (offset length : ℤ) : Except String (List ℕ) :=
  let final_byte := offset + length
  if offset > (data.length : ℤ) ∨ final_byte > (data.length : ℤ) then
    Except.error badRangeMsg
  else Except.ok (pySlice data offset final_byte)

/-- The directory walk of `extract_block_data`: `length` carries the size of the
most recently visited entry (initially 0), exactly like the Python loop variable. -/
def extractGo (data : List ℕ) (header : String) (offset length : ℤ) :
    List BlockInfo → Except String (List ℕ)
  | [] => extractFinalize data offset length
  | bi :: rest =>
    if bi.identifier = header then extractFinalize data offset bi.size
    else
      let new_offset := offset + bi.size
      if new_offset < offset then Except.error offsetOverflowMsg
      else extractGo data header new_offset bi.size rest

/-- `extract_block_data`: compute a named block's byte range by walking the Map. -/
def extract_block_data (data : List ℕ) (header : String) (map_blk : MapBlock) :
    Except String (List ℕ) :=
  extractGo data header map_blk.block_size 0 map_blk.block_info

/-- The mutable locals of `parse_file`'s dispatch loop. -/
structure DecState where
  general_parameters : Option GeneralParametersBlock := none
  supplier_parameters : Option SupplierParametersBlock := none
  fixed_parameters : Option FixedParametersBlock := none
  key_events : Option KeyEvents := none
  link_parameters : Option LinkParameters := none
  data_points : Option DataPoints := none
  proprietary_blocks : List ProprietaryBlock := []
  deriving Repr, DecidableEq

/-- The `try/except ParseError` around `extract_block_data` in `parse_file`:
a failed extraction is replaced by an empty buffer. -/
def orEmpty (x : Except String (List ℕ)) : List ℕ :=
  match x with
  | Except.ok b => b
  | Except.error _ => []

/-- One iteration of `parse_file`'s per-entry loop: extract the entry's bytes
(substituting an empty buffer when extraction fails) and dispatch on the
identifier. -/
def processEntry (data : List ℕ) (map_blk : MapBlock) (st : DecState)
    (bi : BlockInfo) : Except String DecState :=
  let block_data : List ℕ := orEmpty (extract_block_data data bi.identifier map_blk)
  if bi.identifier = "SupParams" then do
    let (sp, _) ← supplier_parameters_block block_data 0
    Except.ok { st with supplier_parameters := some sp }
  else if bi.identifier = "GenParams" then do
    let (gp, _) ← general_parameters_block block_data 0
    Except.ok { st with general_parameters := some gp }
  else if bi.identifier = "FxdParams" then do
    let (fp, _) ← fixed_parameters_block block_data 0
    Except.ok { st with fixed_parameters := some fp }
  else if bi.identifier = "KeyEvents" then do
    let (ke, _) ← key_events_block block_data 0
    Except.ok { st with key_events := some ke }
  else if bi.identifier = "LnkParams" then
    Except.ok st
  else if bi.identifier = "DataPts" then do
    let (dp, _) ← data_points_block block_data 0
    Except.ok { st with data_points := some dp }
  else if bi.identifier = "Cksum" then
    Except.ok st
  else do
    let (pb, _) ← proprietary_block block_data 0
    Except.ok { st with proprietary_blocks := st.proprietary_blocks ++ [pb] }

/-- `parse_file`: parse the Map, then extract and dispatch every directory entry. -/
def parse_file (data : List ℕ) : Except String SORFile := do
  let (map_blk, _) ← map_block data 0
  let st ← map_blk.block_info.foldlM (processEntry data map_blk) {}
  Except.ok ⟨map_blk, st.general_parameters, st.supplier_parameters,
    st.fixed_parameters, st.key_events, st.link_parameters, st.data_points,
    st.proprietary_blocks⟩

/-! ### Encoder primitive (`otdr_parser.py` lines 696–704) -/

/-- Error message raised by `encode_fixed_length_str` for a wide character. -/
def wideCharMsg : String :=
  "A character in a fixed-length string requires more than one byte"

/-- The per-character loop of `encode_fixed_length_str`: each character must
encode to exactly one UTF-8 byte. -/
def encodeFixedChars : List Char → Except String (List ℕ)
  | [] => Except.ok []
  | c :: cs =>
    let encoded := utf8EncodeChar c.toNat
    if encoded.length ≠ 1 then Except.error wideCharMsg
    else do
      let bs ← encodeFixedChars cs
      Except.ok (encoded.getD 0 0 :: bs)

/-- `encode_fixed_length_str`: append the one-byte-per-character encoding of
`s` to the buffer `b` (the `length` argument is accepted and, as in the
source, never used). -/
def encode_fixed_length_str (b : List ℕ) (s : String) (_length : ℤ) :
    Except String (List ℕ) := do
  let bytes_list ← encodeFixedChars s.data
  Except.ok (b ++ bytes_list)

/-! ### Trace analyzer (`otdr_algorithm.py` lines 5–104) -/

/-- `MIN_SPACING` from `otdr_algorithm.py`. -/
def MIN_SPACING : ℚ := 10

/-- `coallesce_results`: inner loop, carrying the current open interval. -/
def coallesceAux (curr : ℚ × ℚ) : List ℚ → List (ℚ × ℚ)
  | [] => [curr]
  | x :: xs =>
    if x - curr.1 > 75 then curr :: coallesceAux (x, x) xs
    else coallesceAux (curr.1, x) xs

/-- `coallesce_results`: merge a hit list into closed intervals. -/
def coallesce_results : List ℚ → List (ℚ × ℚ)
  | [] => []
  | x :: xs => coallesceAux (x, x) xs

/-- `np.arange(0, step*n, step)[:n]` over exact arithmetic: `n` evenly spaced
multiples of `step`; numpy raises `ZeroDivisionError` for a zero step. -/
def npArange (step : ℚ) (n : ℕ) : Except String (List ℚ) :=
  if step = 0 then Except.error "ZeroDivisionError: division by zero"
  else Except.ok ((List.range n).map (fun i => step * i))

/-- `np.searchsorted(xs, v)` (left side) for a sorted `xs`: the number of
leading elements strictly below `v`. -/
def searchsorted (xs : List ℚ) (v : ℚ) : ℕ :=
  (xs.takeWhile (fun x => x < v)).length

/-- Boolean-mask indexing `xs[mask]` of numpy. -/
def boolMask (xs : List ℚ) (mask : List Bool) : List ℚ :=
  ((xs.zip mask).filter (fun p => p.2)).map (fun p => p.1)

/-- Lines 38–55 of `plot_and_detect`: distance calculations, sample scaling
and the analysis-window restriction.  Returns the speed of light in the fibre
(needed by the later offset computations) together with the windowed distance
and power arrays.  Numpy's elementwise division by a zero scale factor yields
non-finite floats rather than raising, so the `ℚ` junk value 0 stands in for
those entries. -/
def computeWindow (sor_file : SORFile) (fiber_distance : ℚ) (scan_type : String) :
    Except String (ℚ × List ℚ × List ℚ) := do
  let fp ← pyAttr sor_file.fixed_parameters
  let speed_of_light : ℚ := 299792458
  let refractive_index := (fp.group_index : ℚ) / 100000
  let speed_of_light_in_fibre ← pyDiv speed_of_light refractive_index
  let ds0 ← pyIndex fp.data_spacing 0
  let seconds_per_10k_points := (ds0 : ℚ) / 10 ^ 10
  let metres_per_data_spacing := seconds_per_10k_points / 10000 * speed_of_light_in_fibre
  let dp ← pyAttr sor_file.data_points
  let sf0 ← pyIndex dp.scale_factors 0
  let sf := sf0.scale_factor
  let scaled_data := sf0.data.map (fun s => -((65535 : ℚ) - (s : ℚ)) / (sf : ℚ))
  let spacing ← npArange metres_per_data_spacing scaled_data.length
  let pred : ℚ → Bool :=
    if scan_type = "short" ∧ fiber_distance > 8000 then (fun x => x ≤ 8500)
    else (fun x => x ≤ fiber_distance)
  let valid_indices := spacing.map pred
  let spacing_filtered := spacing.filter pred
  let scaled_data_filtered := boolMask scaled_data valid_indices
  Except.ok (speed_of_light_in_fibre, spacing_filtered, scaled_data_filtered)

/-- One iteration of the detection loop (lines 82–92), with Python's
short-circuit evaluation order of the two conditions preserved.  The state is
`(last_detected_point, fiber_issues, back_reflections)`. -/
def detectStep (slope curve spacing_trimmed : List ℚ)
    (st : ℚ × List ℚ × List ℚ) (i : ℕ) : Except String (ℚ × List ℚ × List ℚ) := do
  let drop_amount ← pyIndex slope i
  if drop_amount ≥ 5 / 1000 then do
    let sp ← pyIndex spacing_trimmed i
    if sp - st.1 ≥ MIN_SPACING then Except.ok (sp, st.2.1 ++ [sp], st.2.2)
    else Except.ok st
  else if drop_amount < -(5 / 1000) then do
    let c ← pyIndex curve i
    if c < 0 then do
      let sp ← pyIndex spacing_trimmed i
      Except.ok (st.1, st.2.1, st.2.2 ++ [sp])
    else Except.ok st
  else Except.ok st

/-- Lines 36–98 of `plot_and_detect` (the body of the `try`): the full analysis
pipeline.  `smooth` stands for `scipy.ndimage.gaussian_filter1d (σ = 50)` and
`grad` for `np.gradient`, both opaque floating-point library routines; every
theorem below holds for arbitrary such routines. -/
def analyzePipeline (smooth : List ℚ → Except String (List ℚ))
    (grad : List ℚ → List ℚ → Except String (List ℚ))
    (sor_file : SORFile) (start_panel fiber_distance : ℚ) (scan_type : String) :
    Except String (List (ℚ × ℚ) × List (ℚ × ℚ)) := do
  let (speed_of_light_in_fibre, spacing_filtered, scaled_data_filtered) ←
    computeWindow sor_file fiber_distance scan_type
  let fp ← pyAttr sor_file.fixed_parameters
  let gp ← pyAttr sor_file.general_parameters
  let seconds_to_front_panel := (fp.front_panel_offset : ℚ) / 10 ^ 10
  let seconds_to_launch_connector := (gp.user_offset : ℚ) / 10 ^ 10
  let metres_to_front_panel := seconds_to_front_panel * speed_of_light_in_fibre
  let _metres_to_launch_connector :=
    seconds_to_launch_connector * speed_of_light_in_fibre + metres_to_front_panel
  let start_idx := searchsorted spacing_filtered start_panel
  let spacing_trimmed := spacing_filtered.drop start_idx
  let scaled_data_trimmed := scaled_data_filtered.drop start_idx
  let smoothed_data ← smooth scaled_data_trimmed
  let slope ← grad smoothed_data spacing_trimmed
  let curve ← grad slope spacing_trimmed
  let (_, fiber_issues, back_reflections) ←
    (List.range' 1 (slope.length - 1)).foldlM
      (detectStep slope curve spacing_trimmed) (-MIN_SPACING, [], [])
  let merged_back_reflections := coallesce_results back_reflections
  let merged_fiber_issues := coallesce_results fiber_issues
  Except.ok (merged_back_reflections, merged_fiber_issues)

/-- The success log message of `plot_and_detect` (the source interpolates the
two range lists into the text). -/
def successMsg (mbr mfi : List (ℚ × ℚ)) : String :=
  "Successfully analzyed sor file with back reflection at " ++ toString mbr ++
    " and fiber issues at " ++ toString mfi

/-- The failure message of `plot_and_detect`. -/
def failureMsg (e : String) : String :=
  "Failed to analyze sor file with error " ++ e

/-- `plot_and_detect`: the whole body runs inside `try`, every exception is
converted into an explicit `(False, {"error": ...})` result. -/
def plot_and_detect (smooth : List ℚ → Except String (List ℚ))
    (grad : List ℚ → List ℚ → Except String (List ℚ))
    (sor_file : SORFile) (_plot_name : String)
    (start_panel fiber_distance : ℚ) (scan_type : String) :
    Bool × List (String × String) :=
  match analyzePipeline smooth grad sor_file start_panel fiber_distance scan_type with
  | Except.ok (mbr, mfi) => (true, [("logs", successMsg mbr mfi)])
  | Except.error e => (false, [("error", failureMsg e)])

/-! ### Shared helper lemmas -/

instance {ε α : Type} [DecidableEq ε] [DecidableEq α] : DecidableEq (Except ε α) :=
  fun x y =>
    match x, y with
    | Except.ok a, Except.ok b =>
      if h : a = b then .isTrue (congrArg Except.ok h)
      else .isFalse (fun hh => h (Except.ok.inj hh))
    | Except.error e, Except.error f =>
      if h : e = f then .isTrue (congrArg Except.error h)
      else .isFalse (fun hh => h (Except.error.inj hh))
    | Except.ok _, Except.error _ => .isFalse (fun hh => Except.noConfusion hh)
    | Except.error _, Except.ok _ => .isFalse (fun hh => Except.noConfusion hh)

theorem exceptBind_ok {ε α β : Type} (x : Except ε α) (f : α → Except ε β) (b : β) :
    (x >>= f) = Except.ok b ↔ ∃ a, x = Except.ok a ∧ f a = Except.ok b := by
  cases x <;> simp [Bind.bind, Except.bind]

theorem exceptBind_err {ε α β : Type} {x : Except ε α} (f : α → Except ε β) {e : ε}
    (h : x = Except.error e) : (x >>= f) = Except.error e := by
  subst h; rfl

theorem exceptBind_congr {ε α β : Type} {x : Except ε α} (f : α → Except ε β) {a : α}
    (h : x = Except.ok a) : (x >>= f) = f a := by
  subst h; rfl

/-- A parser repeated `n` times returns a list of length `n`. -/
theorem parseN_length {α : Type} {p : List ℕ → ℕ → Except String (α × ℕ)} :
    ∀ {n : ℕ} {data : List ℕ} {offset : ℕ} {xs : List α} {offset' : ℕ},
      parseN n p data offset = Except.ok (xs, offset') → xs.length = n := by
  intro n
  induction n with
  | zero => intro data offset xs offset' h
            simp only [parseN, Except.ok.injEq, Prod.mk.injEq] at h
            simp [← h.1]
  | succ n ih =>
    intro data offset xs offset' h
    simp only [parseN] at h
    rw [exceptBind_ok] at h
    obtain ⟨⟨x, off⟩, hx, h⟩ := h
    rw [exceptBind_ok] at h
    obtain ⟨⟨ys, off2⟩, hys, h⟩ := h
    simp only [Except.ok.injEq, Prod.mk.injEq] at h
    rw [← h.1]
    simp [ih hys]

/-- A parser that always advances by `w` bytes, repeated `n` times, advances by
`n * w` bytes. -/
theorem parseN_offset {α : Type} {p : List ℕ → ℕ → Except String (α × ℕ)} {w : ℕ}
    (hp : ∀ data offset x offset', p data offset = Except.ok (x, offset') →
      offset' = offset + w) :
    ∀ {n : ℕ} {data : List ℕ} {offset : ℕ} {xs : List α} {offset' : ℕ},
      parseN n p data offset = Except.ok (xs, offset') → offset' = offset + n * w := by
  intro n
  induction n with
  | zero => intro data offset xs offset' h
            simp only [parseN, Except.ok.injEq, Prod.mk.injEq] at h
            omega
  | succ n ih =>
    intro data offset xs offset' h
    simp only [parseN] at h
    rw [exceptBind_ok] at h
    obtain ⟨⟨x, off⟩, hx, h⟩ := h
    rw [exceptBind_ok] at h
    obtain ⟨⟨ys, off2⟩, hys, h⟩ := h
    simp only [Except.ok.injEq, Prod.mk.injEq] at h
    have h1 := hp _ _ _ _ hx
    have h2 := ih hys
    rw [← h.2, h2, h1]
    ring

/-! ### Claim C3: the coalescing law -/

/-- Claim C3: `coallesce_results` applied to `[10, 12, 14, 100, 102]` (threshold
75) yields `[[10,14],[100,102]]` and to `[]` yields `[]`; in general it starts an
interval at the first hit, closes the current interval and opens a new one
exactly when a hit's distance minus the current interval's start exceeds 75,
otherwise extends the current interval's end, and always emits the final
interval. -/
theorem claim_C3 :
    coallesce_results [10, 12, 14, 100, 102] = [(10, 14), (100, 102)] ∧
    coallesce_results ([] : List ℚ) = [] ∧
    (∀ (x : ℚ) (xs : List ℚ), coallesce_results (x :: xs) = coallesceAux (x, x) xs) ∧
    (∀ (curr : ℚ × ℚ), coallesceAux curr [] = [curr]) ∧
    (∀ (curr : ℚ × ℚ) (x : ℚ) (xs : List ℚ), x - curr.1 > 75 →
      coallesceAux curr (x :: xs) = curr :: coallesceAux (x, x) xs) ∧
    (∀ (curr : ℚ × ℚ) (x : ℚ) (xs : List ℚ), ¬x - curr.1 > 75 →
      coallesceAux curr (x :: xs) = coallesceAux (curr.1, x) xs) := by
  refine ⟨?_, rfl, fun x xs => rfl, fun curr => rfl, ?_, ?_⟩
  · norm_num [coallesce_results, coallesceAux]
  · intro curr x xs h
    rw [coallesceAux, if_pos h]
  · intro curr x xs h
    rw [coallesceAux, if_neg h]

/-- Witness for C3: the conditional clauses applied at concrete inputs. -/
theorem claim_C3_witness :
    coallesceAux ((10 : ℚ), 14) [100] = [(10, 14), (100, 100)] ∧
    coallesceAux ((10 : ℚ), 12) [14] = [(10, 14)] := by
  constructor
  · rw [claim_C3.2.2.2.2.1 (10, 14) 100 [] (by norm_num), claim_C3.2.2.2.1]
  · rw [claim_C3.2.2.2.2.2 (10, 12) 14 [] (by norm_num), claim_C3.2.2.2.1]

/-! ### Claim C5: primitive reads are bounds-checked and local -/

/-- Bytes of the field `[offset, offset + w)` agreeing in two buffers. -/
def agreeOn (d₁ d₂ : List ℕ) (offset w : ℕ) : Prop :=
  ∀ i < w, d₁[offset + i]? = d₂[offset + i]?

/-- Two buffers that agree on a field window have equal window slices. -/
theorem slice_eq_of_agree {d₁ d₂ : List ℕ} {offset n : ℕ}
    (h : agreeOn d₁ d₂ offset n) :
    (d₁.drop offset).take n = (d₂.drop offset).take n := by
  apply List.ext_getElem?
  intro m
  rw [List.getElem?_take, List.getElem?_take]
  by_cases hm : m < n
  · rw [if_pos hm, if_pos hm, List.getElem?_drop, List.getElem?_drop, h m hm]
  · rw [if_neg hm, if_neg hm]

theorem getD_eq_of_agree {d₁ d₂ : List ℕ} {offset w : ℕ}
    (h : agreeOn d₁ d₂ offset w) (j : ℕ) (h1 : offset ≤ j) (h2 : j < offset + w) :
    d₁.getD j 0 = d₂.getD j 0 := by
  have hj := h (j - offset) (by omega)
  rw [show offset + (j - offset) = j by omega] at hj
  rw [List.getD_eq_getElem?_getD, List.getD_eq_getElem?_getD, hj]

instance (d₁ d₂ : List ℕ) (offset w : ℕ) : Decidable (agreeOn d₁ d₂ offset w) :=
  decidable_of_iff (∀ i < w, d₁[offset + i]? = d₂[offset + i]?) Iff.rfl

/-- Claim C5: each primitive read (`parse_le_i16`, `parse_le_u16`,
`parse_le_i32`, `parse_le_u32`, `fixed_length_str`) fails with a format error
whenever fewer bytes than the field width remain past `offset`, and its result
depends only on the bytes of its field within the supplied buffer (so no value
is ever derived from out-of-bounds bytes). -/
theorem claim_C5 :
    ((∀ (data : List ℕ) (offset : ℕ), data.length < offset + 2 →
        parse_le_i16 data offset = Except.error "Unexpected end of data in i16") ∧
     (∀ (d₁ d₂ : List ℕ) (offset : ℕ), offset + 2 ≤ d₁.length →
        offset + 2 ≤ d₂.length → agreeOn d₁ d₂ offset 2 →
        parse_le_i16 d₁ offset = parse_le_i16 d₂ offset)) ∧
    ((∀ (data : List ℕ) (offset : ℕ), data.length < offset + 2 →
        parse_le_u16 data offset = Except.error "Unexpected end of data in u16") ∧
     (∀ (d₁ d₂ : List ℕ) (offset : ℕ), offset + 2 ≤ d₁.length →
        offset + 2 ≤ d₂.length → agreeOn d₁ d₂ offset 2 →
        parse_le_u16 d₁ offset = parse_le_u16 d₂ offset)) ∧
    ((∀ (data : List ℕ) (offset : ℕ), data.length < offset + 4 →
        parse_le_i32 data offset = Except.error "Unexpected end of data in i32") ∧
     (∀ (d₁ d₂ : List ℕ) (offset : ℕ), offset + 4 ≤ d₁.length →
        offset + 4 ≤ d₂.length → agreeOn d₁ d₂ offset 4 →
        parse_le_i32 d₁ offset = parse_le_i32 d₂ offset)) ∧
    ((∀ (data : List ℕ) (offset : ℕ), data.length < offset + 4 →
        parse_le_u32 data offset = Except.error "Unexpected end of data in u32") ∧
     (∀ (d₁ d₂ : List ℕ) (offset : ℕ), offset + 4 ≤ d₁.length →
        offset + 4 ≤ d₂.length → agreeOn d₁ d₂ offset 4 →
        parse_le_u32 d₁ offset = parse_le_u32 d₂ offset)) ∧
    ((∀ (data : List ℕ) (offset n : ℕ), data.length < offset + n →
        fixed_length_str data offset n =
          Except.error "Unexpected end of data in fixed_length_str") ∧
     (∀ (d₁ d₂ : List ℕ) (offset n : ℕ), offset + n ≤ d₁.length →
        offset + n ≤ d₂.length → agreeOn d₁ d₂ offset n →
        fixed_length_str d₁ offset n = fixed_length_str d₂ offset n)) := by
  refine ⟨⟨?_, ?_⟩, ⟨?_, ?_⟩, ⟨?_, ?_⟩, ⟨?_, ?_⟩, ⟨?_, ?_⟩⟩
  · intro data offset h; rw [parse_le_i16, if_pos h]
  · intro d₁ d₂ offset h1 h2 h
    rw [parse_le_i16, parse_le_i16, if_neg (by omega), if_neg (by omega),
      getD_eq_of_agree h offset (by omega) (by omega),
      getD_eq_of_agree h (offset + 1) (by omega) (by omega)]
  · intro data offset h; rw [parse_le_u16, if_pos h]
  · intro d₁ d₂ offset h1 h2 h
    rw [parse_le_u16, parse_le_u16, if_neg (by omega), if_neg (by omega),
      getD_eq_of_agree h offset (by omega) (by omega),
      getD_eq_of_agree h (offset + 1) (by omega) (by omega)]
  · intro data offset h; rw [parse_le_i32, if_pos h]
  · intro d₁ d₂ offset h1 h2 h
    rw [parse_le_i32, parse_le_i32, if_neg (by omega), if_neg (by omega),
      getD_eq_of_agree h offset (by omega) (by omega),
      getD_eq_of_agree h (offset + 1) (by omega) (by omega),
      getD_eq_of_agree h (offset + 2) (by omega) (by omega),
      getD_eq_of_agree h (offset + 3) (by omega) (by omega)]
  · intro data offset h; rw [parse_le_u32, if_pos h]
  · intro d₁ d₂ offset h1 h2 h
    rw [parse_le_u32, parse_le_u32, if_neg (by omega), if_neg (by omega),
      getD_eq_of_agree h offset (by omega) (by omega),
      getD_eq_of_agree h (offset + 1) (by omega) (by omega),
      getD_eq_of_agree h (offset + 2) (by omega) (by omega),
      getD_eq_of_agree h (offset + 3) (by omega) (by omega)]
  · intro data offset n h; rw [fixed_length_str, if_pos h]
  · intro d₁ d₂ offset n h1 h2 h
    rw [fixed_length_str, fixed_length_str, if_neg (by omega), if_neg (by omega),
      slice_eq_of_agree h]

/-- Witness for C5: each conjunct applied at a concrete buffer. -/
theorem claim_C5_witness :
    parse_le_i16 [5] 0 = Except.error "Unexpected end of data in i16" ∧
    parse_le_i16 [1, 2] 0 = parse_le_i16 [1, 2, 7] 0 ∧
    parse_le_u16 [5] 0 = Except.error "Unexpected end of data in u16" ∧
    parse_le_u16 [1, 2] 0 = parse_le_u16 [1, 2, 7] 0 ∧
    parse_le_i32 [5] 0 = Except.error "Unexpected end of data in i32" ∧
    parse_le_i32 [1, 2, 3, 4] 0 = parse_le_i32 [1, 2, 3, 4, 7] 0 ∧
    parse_le_u32 [5] 0 = Except.error "Unexpected end of data in u32" ∧
    parse_le_u32 [1, 2, 3, 4] 0 = parse_le_u32 [1, 2, 3, 4, 7] 0 ∧
    fixed_length_str [5] 0 2 = Except.error "Unexpected end of data in fixed_length_str" ∧
    fixed_length_str [72, 105] 0 2 = fixed_length_str [72, 105, 200] 0 2 :=
  ⟨claim_C5.1.1 [5] 0 (by decide),
   claim_C5.1.2 [1, 2] [1, 2, 7] 0 (by decide) (by decide) (by decide),
   claim_C5.2.1.1 [5] 0 (by decide),
   claim_C5.2.1.2 [1, 2] [1, 2, 7] 0 (by decide) (by decide) (by decide),
   claim_C5.2.2.1.1 [5] 0 (by decide),
   claim_C5.2.2.1.2 [1, 2, 3, 4] [1, 2, 3, 4, 7] 0 (by decide) (by decide) (by decide),
   claim_C5.2.2.2.1.1 [5] 0 (by decide),
   claim_C5.2.2.2.1.2 [1, 2, 3, 4] [1, 2, 3, 4, 7] 0 (by decide) (by decide) (by decide),
   claim_C5.2.2.2.2.1 [5] 0 2 (by decide),
   claim_C5.2.2.2.2.2 [72, 105] [72, 105, 200] 0 2 (by decide) (by decide) (by decide)⟩

/-! ### Claim C6: fixed-length string encode/decode -/

theorem utf8EncodeChar_length_eq_one_iff (cp : ℕ) :
    (utf8EncodeChar cp).length = 1 ↔ cp < 0x80 := by
  unfold utf8EncodeChar
  split_ifs <;> simp_all

/-- The encoding loop raises at the first character that is at least one
continuation byte wide. -/
theorem encodeFixedChars_error {cs : List Char} (h : ∃ c ∈ cs, 0x80 ≤ c.toNat) :
    encodeFixedChars cs = Except.error wideCharMsg := by
  induction cs with
  | nil => simp at h
  | cons c cs ih =>
    simp only [encodeFixedChars]
    by_cases hc : (utf8EncodeChar c.toNat).length ≠ 1
    · rw [if_pos hc]
    · rw [if_neg hc]
      push_neg at hc
      have hcs : ∃ d ∈ cs, 0x80 ≤ d.toNat := by
        obtain ⟨d, hd, hge⟩ := h
        rcases List.mem_cons.mp hd with rfl | hd'
        · exact absurd ((utf8EncodeChar_length_eq_one_iff _).mp hc) (by omega)
        · exact ⟨d, hd', hge⟩
      exact exceptBind_err _ (ih hcs)

/-- Claim C6 (amended): encoding a fixed-length string containing any character
whose UTF-8 encoding is wider than one byte fails with the encoding error; and
decoding a fixed-length field of `n` bytes, given at least `n` bytes remain,
returns with the cursor advanced by exactly `n` whenever those bytes are valid
UTF-8 (on invalid UTF-8 the source raises a format error instead — see the
counterexample). -/
theorem claim_C6_amended :
    (∀ (b : List ℕ) (s : String) (len : ℤ), (∃ c ∈ s.data, 0x80 ≤ c.toNat) →
      encode_fixed_length_str b s len = Except.error wideCharMsg) ∧
    (∀ (data : List ℕ) (offset n : ℕ) (cs : List Char),
      offset + n ≤ data.length →
      utf8Decode? ((data.drop offset).take n) = some cs →
      fixed_length_str data offset n = Except.ok (String.mk cs, offset + n)) := by
  constructor
  · intro b s len h
    unfold encode_fixed_length_str
    exact exceptBind_err _ (encodeFixedChars_error h)
  · intro data offset n cs h1 h2
    rw [fixed_length_str, if_neg (by omega), h2]

/-- Counterexample to C6 as stated: one byte remains past the cursor, yet
`fixed_length_str` on the non-UTF-8 byte `0xFF` raises a format error instead of
advancing the cursor by one. -/
theorem claim_C6_counterexample :
    0 + 1 ≤ ([0xFF] : List ℕ).length ∧
    fixed_length_str [0xFF] 0 1 = Except.error "Failed to decode fixed_length_str" :=
  ⟨by decide, by decide⟩

/-- Witness for C6: both amended conjuncts at concrete inputs. -/
theorem claim_C6_witness :
    encode_fixed_length_str [] "é" 2 = Except.error wideCharMsg ∧
    fixed_length_str [72, 105] 0 2 = Except.ok (String.mk ['H', 'i'], 0 + 2) :=
  ⟨claim_C6_amended.1 [] "é" 2 ⟨'é', by decide, by decide⟩,
   claim_C6_amended.2 [72, 105] 0 2 ['H', 'i'] (by decide) (by decide)⟩

/-! ### Claim C2: the analyzer never propagates an exception -/

/-- Claim C2: for every decoded file, window parameters, scan type — and every
behaviour of the opaque floating-point smoothing and gradient routines —
`plot_and_detect` returns a pair of a success flag and a diagnostics dictionary:
when the pipeline succeeds the flag is `True` with a log entry, and every
internal failure (missing block, empty array, out-of-domain division, …) is
captured and returned as an explicit `(False, {"error": …})` result carrying
the diagnostic text, never propagated as an exception. -/
theorem claim_C2 (smooth : List ℚ → Except String (List ℚ))
    (grad : List ℚ → List ℚ → Except String (List ℚ))
    (sor_file : SORFile) (plot_name : String)
    (start_panel fiber_distance : ℚ) (scan_type : String) :
    (∃ r, analyzePipeline smooth grad sor_file start_panel fiber_distance scan_type =
        Except.ok r ∧
      plot_and_detect smooth grad sor_file plot_name start_panel fiber_distance
        scan_type = (true, [("logs", successMsg r.1 r.2)])) ∨
    (∃ e, analyzePipeline smooth grad sor_file start_panel fiber_distance scan_type =
        Except.error e ∧
      plot_and_detect smooth grad sor_file plot_name start_panel fiber_distance
        scan_type = (false, [("error", failureMsg e)])) := by
  rcases h : analyzePipeline smooth grad sor_file start_panel fiber_distance scan_type
    with e | ⟨mbr, mfi⟩
  · right
    exact ⟨e, rfl, by unfold plot_and_detect; rw [h]⟩
  · left
    exact ⟨(mbr, mfi), rfl, by unfold plot_and_detect; rw [h]⟩

/-! ### Claim C7: the analysis-window restriction -/

/-- Claim C7: every distance retained in the analysis window is at most 8500
when the scan type is `"short"` and the requested max distance exceeds 8000,
and at most the requested max distance otherwise. -/
theorem claim_C7 (sor_file : SORFile) (fiber_distance : ℚ) (scan_type : String)
    (sol : ℚ) (spacing_filtered scaled_data_filtered : List ℚ)
    (h : computeWindow sor_file fiber_distance scan_type =
      Except.ok (sol, spacing_filtered, scaled_data_filtered)) :
    ((scan_type = "short" ∧ fiber_distance > 8000) →
      ∀ x ∈ spacing_filtered, x ≤ 8500) ∧
    (¬(scan_type = "short" ∧ fiber_distance > 8000) →
      ∀ x ∈ spacing_filtered, x ≤ fiber_distance) := by
  unfold computeWindow at h
  simp only [exceptBind_ok, Except.ok.injEq, Prod.mk.injEq] at h
  obtain ⟨fp, hfp, sol', hsol, ds0, hds0, dp, hdp, sf0, hsf0, spacing, hsp, h⟩ := h
  obtain ⟨hsol', hfil, hmask⟩ := h
  constructor
  · intro hcond x hx
    rw [← hfil, if_pos hcond] at hx
    have := List.mem_filter.mp hx
    exact of_decide_eq_true this.2
  · intro hcond x hx
    rw [← hfil, if_neg hcond] at hx
    have := List.mem_filter.mp hx
    exact of_decide_eq_true this.2

@[simp] theorem ok_bind {ε α β : Type} (a : α) (f : α → Except ε β) :
    (Except.ok a >>= f) = f a := rfl

@[simp] theorem error_bind {ε α β : Type} (e : ε) (f : α → Except ε β) :
    (Except.error e : Except ε α) >>= f = Except.error e := rfl

/-- A concrete fixed parameters block for the analyzer witnesses. -/
def fpWitness : FixedParametersBlock :=
  ⟨0, "mt", 1550, 0, 0, 1, [10], [10000], [2], 100000, 0, 0, 0, 0, 0, 0, 0, 0,
   0, 0, 0, 0, "ST", 0, 0, 0, 0⟩

/-- A concrete general parameters block for the analyzer witnesses. -/
def gpWitness : GeneralParametersBlock :=
  ⟨"EN", "c", "f", 0, 1550, "a", "b", "cc", "NC", 0, 0, "op", "cm"⟩

/-- A concrete data points block (one scale factor, one sample). -/
def dpWitness : DataPoints := ⟨1, 1, [⟨1, 1, [0]⟩]⟩

/-- A concrete decoded file for the analyzer witnesses. -/
def sorWitness : SORFile :=
  ⟨⟨0, 0, 0, []⟩, some gpWitness, none, some fpWitness, none, none,
   some dpWitness, []⟩

theorem sorWitness_window :
    computeWindow sorWitness 25000 "short" = Except.ok (299792458, [0], [-65535]) := by
  rw [computeWindow]
  norm_num [pyAttr, pyIndex, pyDiv, npArange, boolMask, sorWitness,
    fpWitness, dpWitness, List.range_succ]

/-- Witness for C7: the window restriction applied to a concrete file with scan
type "short" and requested max distance 25000 (which exceeds 8000). -/
theorem claim_C7_witness :
    computeWindow sorWitness 25000 "short" = Except.ok (299792458, [0], [-65535]) ∧
    (0 : ℚ) ≤ 8500 :=
  ⟨sorWitness_window,
   (claim_C7 sorWitness 25000 "short" 299792458 [0] [-65535]
      sorWitness_window).1 ⟨rfl, by norm_num⟩ 0 (by simp)⟩

/-! ### Claims C4 and C10: the directory offset law and the overflow branch -/

/-- Sum of the declared sizes of a directory prefix. -/
def sizeSum (l : List BlockInfo) : ℤ := (l.map (fun bi => bi.size)).sum

/-- Walking past a prefix of pairwise non-matching, nonnegative-size entries
accumulates exactly the sum of their sizes and then stops at the target. -/
theorem extractGo_reach (data : List ℕ) (hdr : String) :
    ∀ (pre : List BlockInfo) (offset len0 : ℤ) (tgt : BlockInfo)
      (rest : List BlockInfo),
      (∀ x ∈ pre, x.identifier ≠ hdr) → (∀ x ∈ pre, 0 ≤ x.size) →
      tgt.identifier = hdr →
      extractGo data hdr offset len0 (pre ++ tgt :: rest) =
        extractFinalize data (offset + sizeSum pre) tgt.size := by
  intro pre
  induction pre with
  | nil =>
    intro offset len0 tgt rest _ _ htgt
    simp [extractGo, htgt, sizeSum]
  | cons x pre ih =>
    intro offset len0 tgt rest hne hnn htgt
    have hx : x.identifier ≠ hdr := hne x (by simp)
    have hxs : 0 ≤ x.size := hnn x (by simp)
    simp only [List.cons_append, extractGo, List.append_eq]
    rw [if_neg hx, if_neg (by omega),
      ih (offset + x.size) x.size tgt rest
        (fun y hy => hne y (by simp [hy])) (fun y hy => hnn y (by simp [hy])) htgt]
    have : offset + x.size + sizeSum pre = offset + sizeSum (x :: pre) := by
      simp [sizeSum]; ring
    rw [this]

/-- A prefix entry with a negative size trips the overflow check, whatever
follows it. -/
theorem extractGo_overflow (data : List ℕ) (hdr : String) :
    ∀ (pre : List BlockInfo) (tail : List BlockInfo) (offset len0 : ℤ),
      (∀ x ∈ pre, x.identifier ≠ hdr) → (∃ x ∈ pre, x.size < 0) →
      extractGo data hdr offset len0 (pre ++ tail) =
        Except.error offsetOverflowMsg := by
  intro pre
  induction pre with
  | nil => intro tail offset len0 _ hex; simp at hex
  | cons x pre ih =>
    intro tail offset len0 hne hex
    have hx : x.identifier ≠ hdr := hne x (by simp)
    simp only [List.cons_append, extractGo, List.append_eq]
    rw [if_neg hx]
    by_cases hxs : x.size < 0
    · rw [if_pos (by omega)]
    · rw [if_neg (by omega)]
      apply ih tail (offset + x.size) x.size (fun y hy => hne y (by simp [hy]))
      obtain ⟨y, hy, hys⟩ := hex
      rcases List.mem_cons.mp hy with rfl | hy'
      · omega
      · exact ⟨y, hy', hys⟩

/-- Claim C4: for a Map whose directory entries have nonnegative sizes and
pairwise distinct identifiers, requesting the `k`-th entry's identifier yields
exactly the byte slice starting at `block_size + s₀ + … + s_(k−1)` of length
`s_k` whenever that range lies inside the buffer; and when the computed end of
the range exceeds the buffer length the extraction fails with the format
error instead. -/
theorem claim_C4 (data : List ℕ) (m : MapBlock) (k : ℕ) (bi : BlockInfo)
    (hk : m.block_info[k]? = some bi)
    (hnn : ∀ x ∈ m.block_info, 0 ≤ x.size)
    (hdist : m.block_info.Pairwise (fun a b => a.identifier ≠ b.identifier)) :
    (0 ≤ m.block_size + sizeSum (m.block_info.take k) →
      m.block_size + sizeSum (m.block_info.take k) + bi.size ≤ (data.length : ℤ) →
      extract_block_data data bi.identifier m =
        Except.ok ((data.drop (m.block_size + sizeSum (m.block_info.take k)).toNat).take
          bi.size.toNat)) ∧
    ((data.length : ℤ) < m.block_size + sizeSum (m.block_info.take k) + bi.size →
      extract_block_data data bi.identifier m = Except.error badRangeMsg) := by
  have hklt : k < m.block_info.length := by
    by_contra hge
    rw [List.getElem?_eq_none (by omega)] at hk
    exact Option.noConfusion hk
  have hbi : m.block_info[k] = bi := by
    have := List.getElem?_eq_getElem hklt
    rw [hk] at this
    exact (Option.some.inj this).symm
  have hsplit : m.block_info = m.block_info.take k ++ bi :: m.block_info.drop (k + 1) := by
    conv_lhs => rw [← List.take_append_drop k m.block_info]
    rw [List.drop_eq_getElem_cons hklt, hbi]
  have hne : ∀ x ∈ m.block_info.take k, x.identifier ≠ bi.identifier := by
    intro x hx
    have hp := hsplit ▸ hdist
    exact (List.pairwise_append.mp hp).2.2 x hx bi (by simp)
  have hnn' : ∀ x ∈ m.block_info.take k, 0 ≤ x.size := fun x hx =>
    hnn x (List.mem_of_mem_take hx)
  have hreach : extract_block_data data bi.identifier m =
      extractFinalize data (m.block_size + sizeSum (m.block_info.take k)) bi.size := by
    rw [extract_block_data]
    conv_lhs => rw [hsplit]
    exact extractGo_reach data bi.identifier (m.block_info.take k) m.block_size 0 bi
      (m.block_info.drop (k + 1)) hne hnn' rfl
  have hbs : 0 ≤ bi.size := hnn bi (by rw [hsplit]; simp)
  constructor
  · intro h0 hle
    rw [hreach, extractFinalize]
    rw [if_neg (by omega)]
    congr 1
    rw [pySlice, pyIdx, pyIdx, if_neg (by omega), if_neg (by omega),
      Nat.min_eq_left (by omega), Nat.min_eq_left (by omega)]
    congr 1
    omega
  · intro hgt
    rw [hreach, extractFinalize, if_pos (by omega)]

/-- Claim C10: a negative declared size in an entry strictly before the first
match of the requested identifier always trips the running-offset overflow
check; conversely, when all preceding entries have nonnegative sizes the
overflow branch is unreachable (`ℤ` addition never wraps), so the walk ends in
the range check. -/
theorem claim_C10 (data : List ℕ) (m : MapBlock) (pre : List BlockInfo)
    (tgt : BlockInfo) (rest : List BlockInfo)
    (hsplit : m.block_info = pre ++ tgt :: rest)
    (hne : ∀ x ∈ pre, x.identifier ≠ tgt.identifier) :
    ((∃ x ∈ pre, x.size < 0) →
      extract_block_data data tgt.identifier m = Except.error offsetOverflowMsg) ∧
    ((∀ x ∈ pre, 0 ≤ x.size) →
      extract_block_data data tgt.identifier m ≠ Except.error offsetOverflowMsg) := by
  constructor
  · intro hex
    rw [extract_block_data, hsplit]
    exact extractGo_overflow data tgt.identifier pre (tgt :: rest) m.block_size 0 hne hex
  · intro hnn
    rw [extract_block_data, hsplit,
      extractGo_reach data tgt.identifier pre m.block_size 0 tgt rest hne hnn rfl,
      extractFinalize]
    split_ifs
    · intro hcontra
      exact absurd (Except.error.inj hcontra) (by decide)
    · intro hcontra
      exact Except.noConfusion hcontra

/-- A concrete Map for the C4 witness: block size 1, two entries of size 2. -/
def mapC4 : MapBlock := ⟨0, 1, 3, [⟨"A", 0, 2⟩, ⟨"B", 0, 2⟩]⟩

/-- Witness for C4: the second entry of `mapC4` starts at byte 1 + 2 = 3 and
spans 2 bytes of the 5-byte buffer. -/
theorem claim_C4_witness :
    extract_block_data [1, 2, 3, 4, 5] "B" mapC4 = Except.ok [4, 5] := by
  have h := (claim_C4 [1, 2, 3, 4, 5] mapC4 1 ⟨"B", 0, 2⟩ (by decide) (by decide)
    (by decide)).1 (by decide) (by decide)
  simpa [mapC4, sizeSum] using h

/-- A Map whose first entry declares a negative size before the target. -/
def mapC10neg : MapBlock := ⟨0, 0, 3, [⟨"A", 0, -5⟩, ⟨"B", 0, 3⟩]⟩

/-- A Map whose first entry declares a nonnegative size before the target. -/
def mapC10pos : MapBlock := ⟨0, 0, 3, [⟨"A", 0, 2⟩, ⟨"B", 0, 3⟩]⟩

/-- Witness for C10: a negative preceding size trips the overflow error, and
with nonnegative preceding sizes the overflow error cannot occur. -/
theorem claim_C10_witness :
    extract_block_data [] "B" mapC10neg = Except.error offsetOverflowMsg ∧
    extract_block_data [] "B" mapC10pos ≠ Except.error offsetOverflowMsg :=
  ⟨(claim_C10 [] mapC10neg [⟨"A", 0, -5⟩] ⟨"B", 0, 3⟩ [] rfl (by decide)).1
      ⟨⟨"A", 0, -5⟩, by decide, by decide⟩,
   (claim_C10 [] mapC10pos [⟨"A", 0, 2⟩] ⟨"B", 0, 3⟩ [] rfl (by decide)).2
      (by decide)⟩

/-! ### Claim C9: interval invariants of coalescing on sorted input -/

/-- Invariant of the coalescing loop: given a sorted remainder lying at or
above the current interval's end, and a current interval of width at most 75,
every emitted interval is well-formed and of width at most 75, starts at or
after the current start, the emitted intervals are pairwise separated, the
first emitted interval extends the current one, and every remaining hit is
covered by some emitted interval. -/
theorem coallesceAux_invariant :
    ∀ (l : List ℚ) (c : ℚ × ℚ),
      List.Sorted (· ≤ ·) l → c.1 ≤ c.2 → c.2 ≤ c.1 + 75 → (∀ x ∈ l, c.2 ≤ x) →
      (∀ I ∈ coallesceAux c l, c.1 ≤ I.1 ∧ I.1 ≤ I.2 ∧ I.2 ≤ I.1 + 75) ∧
      (coallesceAux c l).Pairwise (fun I J => I.2 < J.1) ∧
      (∃ I ∈ coallesceAux c l, I.1 = c.1 ∧ c.2 ≤ I.2) ∧
      (∀ x ∈ l, ∃ I ∈ coallesceAux c l, I.1 ≤ x ∧ x ≤ I.2) := by
  intro l
  induction l with
  | nil =>
    intro c _ h12 h75 _
    refine ⟨?_, by simp [coallesceAux], ⟨c, by simp [coallesceAux]⟩, by simp⟩
    intro I hI
    simp only [coallesceAux, List.mem_singleton] at hI
    subst hI
    exact ⟨le_refl _, h12, h75⟩
  | cons x xs ih =>
    intro c hsort h12 h75 hle
    obtain ⟨hx_le, hsort'⟩ := List.sorted_cons.mp hsort
    have hcx : c.2 ≤ x := hle x (by simp)
    by_cases hgt : x - c.1 > 75
    · obtain ⟨ih1, ih2, ih3, ih4⟩ :=
        ih (x, x) hsort' (le_refl x) (by norm_num) hx_le
    
      simp only [coallesceAux, if_pos hgt]
      refine ⟨?_, ?_, ?_, ?_⟩
      · intro I hI
        rcases List.mem_cons.mp hI with rfl | hI'
        · exact ⟨le_refl _, h12, h75⟩
        · obtain ⟨ha, hb, hc⟩ := ih1 I hI'
          simp only at ha
          exact ⟨by linarith, hb, hc⟩
      · rw [List.pairwise_cons]
        refine ⟨?_, ih2⟩
        intro J hJ
        have := (ih1 J hJ).1
        simp only at this
        linarith
      · exact ⟨c, by simp, rfl, le_refl _⟩
      · intro y hy
        rcases List.mem_cons.mp hy with rfl | hy'
        · obtain ⟨I, hI, h1, h2⟩ := ih3
          simp only at h1 h2
          exact ⟨I, by simp [hI], le_of_eq h1, h2⟩
        · obtain ⟨I, hI, ha, hb⟩ := ih4 y hy'
          exact ⟨I, by simp [hI], ha, hb⟩
    · have hcx1 : c.1 ≤ x := by linarith
      have hx75 : x ≤ c.1 + 75 := by linarith
      obtain ⟨ih1, ih2, ih3, ih4⟩ := ih (c.1, x) hsort' hcx1 hx75 hx_le
      simp only [coallesceAux, if_neg hgt]
      simp only at ih1 ih3
      refine ⟨ih1, ih2, ?_, ?_⟩
      · obtain ⟨I, hI, h1, h2⟩ := ih3
        exact ⟨I, hI, h1, by linarith⟩
      · intro y hy
        rcases List.mem_cons.mp hy with rfl | hy'
        · obtain ⟨I, hI, h1, h2⟩ := ih3
          exact ⟨I, hI, by linarith [le_of_eq h1], h2⟩
        · exact ih4 y hy'

/-- Claim C9: on a nondecreasing hit list, every returned interval `[a, b]`
satisfies `a ≤ b` and `b − a ≤ 75`, the intervals are emitted in increasing
order of start, and every input hit lies within exactly one returned interval. -/
theorem claim_C9 (l : List ℚ) (hsort : List.Sorted (· ≤ ·) l) :
    (∀ I ∈ coallesce_results l, I.1 ≤ I.2 ∧ I.2 - I.1 ≤ 75) ∧
    (coallesce_results l).Pairwise (fun I J => I.1 < J.1) ∧
    (∀ x ∈ l, ∃! I, I ∈ coallesce_results l ∧ I.1 ≤ x ∧ x ≤ I.2) := by
  cases l with
  | nil => simp [coallesce_results]
  | cons x xs =>
    obtain ⟨hx_le, hsort'⟩ := List.sorted_cons.mp hsort
    obtain ⟨ih1, ih2, ih3, ih4⟩ :=
      coallesceAux_invariant xs (x, x) hsort' (le_refl x) (by norm_num) hx_le
    simp only [coallesce_results]
    refine ⟨?_, ?_, ?_⟩
    · intro I hI
      obtain ⟨_, hb, hc⟩ := ih1 I hI
      exact ⟨hb, by linarith⟩
    · exact ih2.imp_of_mem (fun {I J} hI hJ hr => lt_of_le_of_lt (ih1 I hI).2.1 hr)
    · intro y hy
      have hex : ∃ I ∈ coallesceAux (x, x) xs, I.1 ≤ y ∧ y ≤ I.2 := by
        rcases List.mem_cons.mp hy with rfl | hy'
        · obtain ⟨I, hI, h1, h2⟩ := ih3
          simp only at h1 h2
          exact ⟨I, hI, le_of_eq h1, h2⟩
        · exact ih4 y hy'
      obtain ⟨I, hI, hcov⟩ := hex
      refine ⟨I, ⟨hI, hcov⟩, ?_⟩
      rintro J ⟨hJ, hJ1, hJ2⟩
      by_contra hne
      have hsym : (coallesceAux (x, x) xs).Pairwise
          (fun I J => I.2 < J.1 ∨ J.2 < I.1) :=
        ih2.imp (fun h => Or.inl h)
      have key := List.Pairwise.forall
        (fun a b h => h.elim Or.inr Or.inl) hsym hJ hI hne
      rcases key with h | h
      · linarith [hcov.1, hcov.2]
      · linarith [hcov.1, hcov.2]

/-- Witness for C9: the invariants instantiated on the sorted hit list
`[10, 12, 14, 100, 102]` and its first returned interval. -/
theorem claim_C9_witness : (10 : ℚ) ≤ 14 ∧ (14 : ℚ) - 10 ≤ 75 := by
  have hmem : ((10 : ℚ), (14 : ℚ)) ∈ coallesce_results [10, 12, 14, 100, 102] := by
    norm_num [coallesce_results, coallesceAux]
  exact (claim_C9 [10, 12, 14, 100, 102] (by decide)).1 (10, 14) hmem

/-! ### Claim C8: the three parallel arrays of the fixed parameters block -/

theorem parse_le_i16_advance {data : List ℕ} {off : ℕ} {x : ℤ} {off' : ℕ}
    (h : parse_le_i16 data off = Except.ok (x, off')) : off' = off + 2 := by
  rw [parse_le_i16] at h
  split_ifs at h
  simp only [Except.ok.injEq, Prod.mk.injEq] at h
  exact h.2.symm

theorem parse_le_i32_advance {data : List ℕ} {off : ℕ} {x : ℤ} {off' : ℕ}
    (h : parse_le_i32 data off = Except.ok (x, off')) : off' = off + 4 := by
  rw [parse_le_i32] at h
  split_ifs at h
  simp only [Except.ok.injEq, Prod.mk.injEq] at h
  exact h.2.symm

/-- Claim C8 (amended): whenever `fixed_parameters_block` decodes successfully,
the three arrays all have identical length `max(total_n_pulse_widths_used, 0)`
(so equal to the decoded count exactly when the count is nonnegative — a
negative decoded count yields empty arrays, see the counterexample), and the
arrays are read as three consecutive homogeneous runs — all i16 pulse widths,
then all i32 spacings, then all i32 point counts — at consecutive offsets right
after the count field. -/
theorem claim_C8_amended (data : List ℕ) (offset : ℕ) (fp : FixedParametersBlock)
    (offset' : ℕ)
    (h : fixed_parameters_block data offset = Except.ok (fp, offset')) :
    fp.pulse_widths_used.length = fp.total_n_pulse_widths_used.toNat ∧
    fp.data_spacing.length = fp.total_n_pulse_widths_used.toNat ∧
    fp.n_data_points_for_pulse_widths_used.length =
      fp.total_n_pulse_widths_used.toNat ∧
    (∃ o : ℕ,
      parse_le_i16 data o = Except.ok (fp.total_n_pulse_widths_used, o + 2) ∧
      parseN fp.total_n_pulse_widths_used.toNat parse_le_i16 data (o + 2) =
        Except.ok (fp.pulse_widths_used,
          o + 2 + fp.total_n_pulse_widths_used.toNat * 2) ∧
      parseN fp.total_n_pulse_widths_used.toNat parse_le_i32 data
          (o + 2 + fp.total_n_pulse_widths_used.toNat * 2) =
        Except.ok (fp.data_spacing,
          o + 2 + fp.total_n_pulse_widths_used.toNat * 2 +
            fp.total_n_pulse_widths_used.toNat * 4) ∧
      parseN fp.total_n_pulse_widths_used.toNat parse_le_i32 data
          (o + 2 + fp.total_n_pulse_widths_used.toNat * 2 +
            fp.total_n_pulse_widths_used.toNat * 4) =
        Except.ok (fp.n_data_points_for_pulse_widths_used,
          o + 2 + fp.total_n_pulse_widths_used.toNat * 2 +
            fp.total_n_pulse_widths_used.toNat * 4 +
            fp.total_n_pulse_widths_used.toNat * 4)) := by
  unfold fixed_parameters_block at h
  simp only [exceptBind_ok, Except.ok.injEq, Prod.mk.injEq] at h
  obtain ⟨o0, hbh, ⟨dts, o1⟩, hdts, ⟨uod, o2⟩, huod, ⟨aw, o3⟩, haw,
    ⟨ao, o4⟩, hao, ⟨aod, o5⟩, haod, ⟨cnt, o6⟩, hcnt,
    ⟨pw, o7⟩, hpw, ⟨ds, o8⟩, hds, ⟨ndp, o9⟩, hndp, rest⟩ := h
  obtain ⟨⟨gi, o10⟩, hgi, ⟨bc, o11⟩, hbc, ⟨na, o12⟩, hna, ⟨at2, o13⟩, hat,
    ⟨ar, o14⟩, har, ⟨ard, o15⟩, hard, ⟨fpo, o16⟩, hfpo, ⟨nfl, o17⟩, hnfl,
    ⟨nfsf, o18⟩, hnfsf, ⟨pofp, o19⟩, hpofp, ⟨lt2, o20⟩, hlt,
    ⟨rt, o21⟩, hrt, ⟨eft, o22⟩, heft, ⟨tt, o23⟩, htt,
    ⟨w1, o24⟩, hw1, ⟨w2, o25⟩, hw2, ⟨w3, o26⟩, hw3, ⟨w4, o27⟩, hw4,
    hfp, hoff⟩ := rest
  have hfppw : fp.pulse_widths_used = pw := by rw [← hfp]
  have hfpds : fp.data_spacing = ds := by rw [← hfp]
  have hfpndp : fp.n_data_points_for_pulse_widths_used = ndp := by rw [← hfp]
  have hfpcnt : fp.total_n_pulse_widths_used = cnt := by rw [← hfp]
  have hl1 : pw.length = cnt.toNat := parseN_length hpw
  have hl2 : ds.length = cnt.toNat := parseN_length hds
  have hl3 : ndp.length = cnt.toNat := parseN_length hndp
  have ho7 : o7 = o6 + cnt.toNat * 2 :=
    parseN_offset (fun _ _ _ _ hh => parse_le_i16_advance hh) hpw
  have ho8 : o8 = o7 + cnt.toNat * 4 :=
    parseN_offset (fun _ _ _ _ hh => parse_le_i32_advance hh) hds
  have ho9 : o9 = o8 + cnt.toNat * 4 :=
    parseN_offset (fun _ _ _ _ hh => parse_le_i32_advance hh) hndp
  have ho6 : o6 = o5 + 2 := parse_le_i16_advance hcnt
  refine ⟨by rw [hfppw, hfpcnt, hl1], by rw [hfpds, hfpcnt, hl2],
    by rw [hfpndp, hfpcnt, hl3], ⟨o5, ?_, ?_, ?_, ?_⟩⟩
  · rw [hfpcnt, ← ho6]; exact hcnt
  · rw [hfpcnt, hfppw, ← ho6, ← ho7]; exact hpw
  · rw [hfpcnt, hfpds, ← ho6, ← ho7, ← ho8]; exact hds
  · rw [hfpcnt, hfpndp, ← ho6, ← ho7, ← ho8, ← ho9]; exact hndp

/-- Shared prefix of the concrete fixed-parameters buffers: "FxdParams\0",
a zero timestamp, units "mt", and zero wavelength/offset fields. -/
def c8head : List ℕ :=
  [70, 120, 100, 80, 97, 114, 97, 109, 115, 0] ++ List.replicate 4 0 ++
  [109, 116] ++ List.replicate 10 0

/-- Shared suffix: the 36 zero bytes of the scalar fields, trace type "ST",
and the four zero window coordinates. -/
def c8tail : List ℕ := List.replicate 36 0 ++ [83, 84] ++ List.replicate 16 0

/-- A fixed-parameters buffer whose pulse-width count decodes to −1. -/
def c8neg : List ℕ := c8head ++ [255, 255] ++ c8tail

/-- A fixed-parameters buffer with count 1 and one entry per array. -/
def c8pos : List ℕ :=
  c8head ++ [1, 0] ++ [5, 0] ++ [7, 0, 0, 0] ++ [9, 0, 0, 0] ++ c8tail

/-- The decode of `c8pos`. -/
def c8posFp : FixedParametersBlock :=
  ⟨0, "mt", 0, 0, 0, 1, [5], [7], [9], 0, 0, 0, 0, 0, 0, 0, 0, 0, 0, 0, 0, 0,
   "ST", 0, 0, 0, 0⟩

/-- Counterexample to C8 as stated: `c8neg` decodes successfully with the
leading count field −1 (Python's `range` of a negative count is empty), so all
three arrays have length 0, not length equal to the decoded count. -/
theorem claim_C8_counterexample :
    (fixed_parameters_block c8neg 0).toOption.map
        (fun p => (p.1.total_n_pulse_widths_used, p.1.pulse_widths_used.length,
          p.1.data_spacing.length,
          p.1.n_data_points_for_pulse_widths_used.length)) =
      some (-1, 0, 0, 0) := by decide

/-- Witness for C8: the amended theorem applied to the concrete buffer `c8pos`
with count 1. -/
theorem claim_C8_witness :
    c8posFp.pulse_widths_used.length = c8posFp.total_n_pulse_widths_used.toNat ∧
    c8posFp.data_spacing.length = c8posFp.total_n_pulse_widths_used.toNat ∧
    c8posFp.n_data_points_for_pulse_widths_used.length =
      c8posFp.total_n_pulse_widths_used.toNat := by
  have h := claim_C8_amended c8pos 0 c8posFp 92 (by decide)
  exact ⟨h.1, h.2.1, h.2.2.1⟩

/-! ### Claim C1: leniency of the assembler versus typed-decoder aborts -/

/-- If some list element makes the folded step fail from every state, the
monadic fold fails. -/
theorem foldlM_error_absorb {σ α : Type} (f : σ → α → Except String σ) :
    ∀ (l : List α) (x : α), x ∈ l → (∀ s, ∃ e, f s x = Except.error e) →
    ∀ s, ∃ e, l.foldlM f s = Except.error e := by
  intro l
  induction l with
  | nil => intro x hx; simp at hx
  | cons a l ih =>
    intro x hx hf s
    rw [List.foldlM_cons]
    rcases List.mem_cons.mp hx with rfl | hx'
    · obtain ⟨e, he⟩ := hf s
      exact ⟨e, by rw [he]; rfl⟩
    · cases hfa : f s a with
      | error e => exact ⟨e, rfl⟩
      | ok s' =>
        obtain ⟨e, he⟩ := ih x hx' hf s'
        exact ⟨e, by rw [ok_bind]; exact he⟩

/-- When extraction fails for an entry whose identifier is dispatched to a
typed decoder (anything except the skipped "LnkParams" and "Cksum"), the
decoder runs on the substituted empty buffer and fails, from every state. -/
theorem processEntry_error (data : List ℕ) (map_blk : MapBlock) (bi : BlockInfo)
    (hex : ∃ err, extract_block_data data bi.identifier map_blk = Except.error err)
    (hL : bi.identifier ≠ "LnkParams") (hC : bi.identifier ≠ "Cksum")
    (st : DecState) :
    ∃ e, processEntry data map_blk st bi = Except.error e := by
  obtain ⟨err, hex⟩ := hex
  unfold processEntry
  rw [hex]
  simp only [orEmpty]
  by_cases h1 : bi.identifier = "SupParams"
  · rw [if_pos h1]
    exact ⟨"Expected header not found", exceptBind_err _
      (by decide : supplier_parameters_block [] 0 =
        Except.error "Expected header not found")⟩
  rw [if_neg h1]
  by_cases h2 : bi.identifier = "GenParams"
  · rw [if_pos h2]
    exact ⟨"Expected header not found", exceptBind_err _
      (by decide : general_parameters_block [] 0 =
        Except.error "Expected header not found")⟩
  rw [if_neg h2]
  by_cases h3 : bi.identifier = "FxdParams"
  · rw [if_pos h3]
    exact ⟨"Expected header not found", exceptBind_err _
      (by decide : fixed_parameters_block [] 0 =
        Except.error "Expected header not found")⟩
  rw [if_neg h3]
  by_cases h4 : bi.identifier = "KeyEvents"
  · rw [if_pos h4]
    exact ⟨"Expected header not found", exceptBind_err _
      (by decide : key_events_block [] 0 =
        Except.error "Expected header not found")⟩
  rw [if_neg h4, if_neg hL]
  by_cases h5 : bi.identifier = "DataPts"
  · rw [if_pos h5]
    exact ⟨"Expected header not found", exceptBind_err _
      (by decide : data_points_block [] 0 =
        Except.error "Expected header not found")⟩
  rw [if_neg h5, if_neg hC]
  exact ⟨"Null terminator not found", exceptBind_err _
    (by decide : proprietary_block [] 0 =
      Except.error "Null terminator not found")⟩

/-- Claim C1 (amended): a malformed Map header at offset 0 aborts the whole
decode with that format error; an entry whose computed range is invalid gets an
empty buffer substituted, after which the decode completes with the block
absent only for the dispatch-skipped identifiers "LnkParams" and "Cksum" (the
entry is a no-op on the decode state); for every other identifier the typed
decoder rejects the empty buffer and the whole decode aborts. -/
theorem claim_C1_amended :
    (∀ (data : List ℕ) (e : String), block_header data 0 "Map" = Except.error e →
      parse_file data = Except.error e) ∧
    (∀ (data : List ℕ) (m : MapBlock) (off : ℕ),
      map_block data 0 = Except.ok (m, off) →
      ∀ bi ∈ m.block_info,
        (∃ err, extract_block_data data bi.identifier m = Except.error err) →
        bi.identifier ≠ "LnkParams" → bi.identifier ≠ "Cksum" →
        ∃ e, parse_file data = Except.error e) ∧
    (∀ (data : List ℕ) (m : MapBlock) (st : DecState) (bi : BlockInfo),
      bi.identifier = "LnkParams" ∨ bi.identifier = "Cksum" →
      processEntry data m st bi = Except.ok st) := by
  refine ⟨?_, ?_, ?_⟩
  · intro data e h
    have hmb : map_block data 0 = Except.error e := by
      unfold map_block
      rw [h]
      rfl
    unfold parse_file
    rw [hmb]
    rfl
  · intro data m off hmb bi hbi hex hL hC
    unfold parse_file
    rw [hmb]
    simp only [ok_bind]
    obtain ⟨e, he⟩ := foldlM_error_absorb (processEntry data m) m.block_info bi hbi
      (processEntry_error data m bi hex hL hC) {}
    exact ⟨e, by rw [he]; rfl⟩
  · intro data m st bi h
    rcases h with h | h <;> simp [processEntry, h]

/-- A 28-byte buffer: a well-formed Map whose single directory entry
"SupParams" declares size 1000, far past the end of the buffer. -/
def c1cex : List ℕ :=
  [77, 97, 112, 0, 0, 0, 28, 0, 0, 0, 2, 0,
   83, 117, 112, 80, 97, 114, 97, 109, 115, 0, 0, 0, 232, 3, 0, 0]

/-- The Map decoded from `c1cex`. -/
def c1cexMap : MapBlock := ⟨0, 28, 2, [⟨"SupParams", 0, 1000⟩]⟩

/-- Counterexample to C1 as stated: the Map of `c1cex` decodes successfully and
the computed range of its "SupParams" entry is invalid, yet `parse_file` does
not complete with the block absent — the supplier decoder rejects the
substituted empty buffer and the whole decode aborts. -/
theorem claim_C1_counterexample :
    map_block c1cex 0 = Except.ok (c1cexMap, 28) ∧
    extract_block_data c1cex "SupParams" c1cexMap = Except.error badRangeMsg ∧
    parse_file c1cex = Except.error "Expected header not found" :=
  ⟨by decide, by decide, by decide⟩

/-- Witness for C1: the amended conjuncts at concrete inputs — a buffer with a
malformed Map header aborts, the `c1cex` decode aborts, and a "Cksum" entry is
processed as a no-op. -/
theorem claim_C1_witness :
    parse_file [1, 2, 3] = Except.error "Expected header not found" ∧
    (∃ e, parse_file c1cex = Except.error e) ∧
    processEntry [] ⟨0, 0, 0, []⟩ {} ⟨"Cksum", 0, 5⟩ = Except.ok {} :=
  ⟨claim_C1_amended.1 [1, 2, 3] "Expected header not found" (by decide),
   claim_C1_amended.2.1 c1cex c1cexMap 28 (by decide) ⟨"SupParams", 0, 1000⟩
     (by decide) ⟨badRangeMsg, by decide⟩ (by decide) (by decide),
   claim_C1_amended.2.2 [] ⟨0, 0, 0, []⟩ {} ⟨"Cksum", 0, 5⟩ (Or.inr rfl)⟩
